import Mathlib

/-!
# GitSync registry — verification of the repository/target creation handlers

Shallow embedding of the `gitsync` HTTP handlers (Go):
  * `internal/handlers/repo_handler.go`   — `RepoHandler.CreateRepository`, `RepoHandler.ListRepositories`
  * `internal/handlers/target_handler.go` — `TargetHandler.CreateTarget`, and the
    monolithic `Handler` variant containing all three operations
  * `internal/handlers/handlers.go`       — the facade `Handler` delegating to the two sub-handlers
  * `internal/models` — `Repository`, `Target`, request types, JSON tags

The relational store is modelled as lists of rows; each SQL statement the
handlers issue is embedded as a function on that state.  Store-level I/O
failures (a `QueryRowContext` / `ExecContext` returning an error) are modelled
by explicit fault flags, one per round-trip the handler makes.  `time.Now()`
and uuid generation (`uuid.New()` client-side, `gen_random_uuid()` store-side)
are environment inputs: the handlers take the current clock value and the
freshly drawn identifier as parameters.
-/

namespace GitSync

/-- JSON values, enough to state what the handlers serialize.
`Json.obj` keeps fields in emission order, as Go's `encoding/json` does for
struct fields. -/
inductive Json where
  | null : Json
  | str : String → Json
  | num : Nat → Json
  | arr : List Json → Json
  | obj : List (String × Json) → Json

/-- Field lookup in a JSON object; `none` when the key is absent or the value
is not an object. -/
def Json.lookup : Json → String → Option Json
  | .obj fields, k => fields.lookup k
  | _, _ => none

/-- A response body: either JSON written by `json.NewEncoder(w).Encode`, or the
plain text written by `http.Error`. -/
inductive RespBody where
  | jsonBody : Json → RespBody
  | textBody : String → RespBody

/-- A persisted row of the `repositories` table
(`id, name, source_provider, source_url, created_at`). -/
structure RepoRow where
  id : String
  name : String
  sourceProvider : String
  sourceURL : String
  createdAt : Nat
deriving DecidableEq, Repr

/-- A persisted row of the `replication_targets` table, which is also the
in-memory `models.Target` record
(`id, repository_id, provider, remote_url, created_at`). -/
structure Target where
  id : String
  repositoryID : String
  provider : String
  remoteURL : String
  createdAt : Nat
deriving DecidableEq, Repr

/-- The relational store state: the two tables the handlers touch.  (The
`executions` table exists in the schema but no handler reads or writes it.) -/
structure Store where
  repos : List RepoRow
  targets : List Target
deriving DecidableEq, Repr

/-- Decoded body of `POST /repositories` (`models.CreateRepositoryRequest`). -/
structure CreateRepositoryRequest where
  name : String
  sourceProvider : String
  sourceURL : String
deriving DecidableEq, Repr

/-- Decoded body of `POST /repositories/{id}/targets`
(`models.CreateTargetRequest`). -/
structure CreateTargetRequest where
  provider : String
  remoteURL : String
deriving DecidableEq, Repr

/-- Whitespace per Go's `unicode.IsSpace` over the characters
`strings.TrimSpace` strips in the handlers' inputs. -/
def isSpaceChar (c : Char) : Bool :=
  c == ' ' || c == '\t' || c == '\n' || c == '\r' ||
  c == '\x0b' || c == '\x0c' || c == '\u0085' || c == '\u00A0'

/-- Embedding of Go `strings.TrimSpace`: drop whitespace from both ends. -/
def trimSpace (s : String) : String :=
  String.mk (((s.data.dropWhile isSpaceChar).reverse.dropWhile isSpaceChar).reverse)

/-- Embedding of Go `strings.HasPrefix`. -/
def strStarts (s pre : String) : Bool :=
  pre.data.isPrefixOf s.data

/-- The `allowedProviders` map shared by both registrars:
`{"github": true, "gitlab": true, "gitea": true}`. -/
def allowedProviders (p : String) : Bool :=
  p == "github" || p == "gitlab" || p == "gitea"

/-- `SELECT EXISTS(SELECT 1 FROM repositories WHERE source_url = $1)`. -/
def existsRepoWithSourceURL (s : Store) (url : String) : Bool :=
  s.repos.any (fun r => r.sourceURL == url)

/-- `SELECT EXISTS(SELECT 1 FROM repositories WHERE id = $1)`. -/
def existsRepoWithID (s : Store) (rid : String) : Bool :=
  s.repos.any (fun r => r.id == rid)

/-- `SELECT EXISTS(SELECT 1 FROM replication_targets WHERE repository_id = $1
AND remote_url = $2)`. -/
def existsTargetWithURL (s : Store) (rid url : String) : Bool :=
  s.targets.any (fun t => t.repositoryID == rid && t.remoteURL == url)

/-- `SELECT ... FROM replication_targets WHERE repository_id = $1`, in row
insertion order. -/
def targetsOf (s : Store) (rid : String) : List Target :=
  s.targets.filter (fun t => t.repositoryID == rid)

/-- `created_at` descending, the order `ORDER BY created_at DESC` yields. -/
def createdDesc (a b : RepoRow) : Prop :=
  b.createdAt ≤ a.createdAt

instance : DecidableRel createdDesc :=
  fun a b => Nat.decLe b.createdAt a.createdAt

instance : IsTotal RepoRow createdDesc :=
  ⟨fun a b => (Nat.le_total b.createdAt a.createdAt).imp id id⟩

instance : IsTrans RepoRow createdDesc :=
  ⟨fun _ _ _ hab hbc => Nat.le_trans hbc hab⟩

/-- `SELECT id, name, source_provider, source_url, created_at FROM repositories
ORDER BY created_at DESC`: the table's rows sorted by creation time
descending. -/
def orderByCreatedDesc (rs : List RepoRow) : List RepoRow :=
  rs.insertionSort createdDesc

/-- JSON serialization of `models.Target` (all fields tagged, none omitted). -/
def encodeTarget (t : Target) : Json :=
  .obj [("id", .str t.id), ("repository_id", .str t.repositoryID),
        ("provider", .str t.provider), ("remote_url", .str t.remoteURL),
        ("created_at", .num t.createdAt)]

/-- JSON serialization of `models.Repository` with target list `ts`.  The
`Targets` field is tagged `json:"targets,omitempty"`, so an empty slice is
omitted from the output entirely. -/
def encodeRepoWith (r : RepoRow) (ts : List Target) : Json :=
  .obj ([("id", .str r.id), ("name", .str r.name),
         ("source_provider", .str r.sourceProvider),
         ("source_url", .str r.sourceURL),
         ("created_at", .num r.createdAt)] ++
        (if ts.isEmpty then [] else [("targets", .arr (ts.map encodeTarget))]))

/-- Outcome of one handler invocation: HTTP status, body, store state after the
call, and the number of store round-trips the handler performed. -/
structure HandlerResult where
  status : Nat
  body : RespBody
  store : Store
  storeCalls : Nat

/-- Store faults for `CreateRepository`: its two round-trips (the source-url
existence query, the `INSERT`) each may fail.  `insertErr` is the text of
`err.Error()` appended to the 500 message. -/
structure RepoCreateFaults where
  existsQueryFails : Bool
  insertFails : Bool
  insertErr : String
deriving DecidableEq, Repr

/-- The fault-free store behaviour for `CreateRepository`. -/
def noRepoFaults : RepoCreateFaults :=
  { existsQueryFails := false, insertFails := false, insertErr := "" }

/-- Store faults for `CreateTarget`: its three round-trips (repository
existence query, target existence query, `INSERT`) each may fail. -/
structure TargetCreateFaults where
  repoExistsQueryFails : Bool
  targetExistsQueryFails : Bool
  insertFails : Bool
deriving DecidableEq, Repr

/-- The fault-free store behaviour for `CreateTarget`. -/
def noTargetFaults : TargetCreateFaults :=
  { repoExistsQueryFails := false, targetExistsQueryFails := false,
    insertFails := false }

/-- Store faults for `ListRepositories`: the repositories query may fail, and
the per-repository targets query fails for the repository ids listed in
`targetsQueryFailsFor`. -/
structure ListFaults where
  reposQueryFails : Bool
  targetsQueryFailsFor : List String
deriving DecidableEq, Repr

/-- The fault-free store behaviour for `ListRepositories`. -/
def noListFaults : ListFaults :=
  { reposQueryFails := false, targetsQueryFailsFor := [] }

/-- `RepoHandler.CreateRepository` (repo_handler.go), which the facade
`Handler.CreateRepository` delegates to verbatim.  `body` is the decoded
request (`none` when `json.Decode` fails), `newId` the identifier the store
draws for `INSERT ... RETURNING id` (`gen_random_uuid()`), `now` the value of
`time.Now()`. -/
def createRepository (s : Store) (newId : String) (now : Nat)
    (body : Option CreateRepositoryRequest) (f : RepoCreateFaults) :
    HandlerResult :=
  match body with
  | none =>
    { status := 400, body := .textBody "invalid request body",
      store := s, storeCalls := 0 }
  | some req =>
    if trimSpace req.name == "" then
      { status := 400, body := .textBody "name is required",
        store := s, storeCalls := 0 }
    else if trimSpace req.sourceProvider == "" then
      { status := 400, body := .textBody "source_provider is required",
        store := s, storeCalls := 0 }
    else if trimSpace req.sourceURL == "" then
      { status := 400, body := .textBody "source_url is required",
        store := s, storeCalls := 0 }
    else if !allowedProviders req.sourceProvider then
      { status := 400,
        body := .textBody "invalid source_provider. allowed: github, gitlab, gitea",
        store := s, storeCalls := 0 }
    else if !(strStarts req.sourceURL "https://" || strStarts req.sourceURL "ssh://") then
      { status := 400,
        body := .textBody "source_url must start with https:// or ssh://",
        store := s, storeCalls := 0 }
    else if f.existsQueryFails then
      { status := 500, body := .textBody "failed to check repository existence",
        store := s, storeCalls := 1 }
    else if existsRepoWithSourceURL s req.sourceURL then
      { status := 409,
        body := .textBody "repository with this source_url already exists",
        store := s, storeCalls := 1 }
    else if f.insertFails then
      { status := 500,
        body := .textBody ("failed to create repository: " ++ f.insertErr),
        store := s, storeCalls := 2 }
    else
      let row : RepoRow :=
        { id := newId, name := req.name, sourceProvider := req.sourceProvider,
          sourceURL := req.sourceURL, createdAt := now }
      { status := 201, body := .jsonBody (encodeRepoWith row []),
        store := { s with repos := s.repos ++ [row] }, storeCalls := 2 }

/-- `TargetHandler.CreateTarget` (target_handler.go), which the facade
delegates to verbatim.  `rid` is the `{id}` path variable; the repository
existence check runs before the body is decoded, and its guard is
`if err != nil || !exists`, so a store failure on that query also takes the
404 branch. -/
def createTarget (s : Store) (newId : String) (now : Nat) (rid : String)
    (body : Option CreateTargetRequest) (f : TargetCreateFaults) :
    HandlerResult :=
  if f.repoExistsQueryFails || !existsRepoWithID s rid then
    { status := 404, body := .textBody "repository not found",
      store := s, storeCalls := 1 }
  else
    match body with
    | none =>
      { status := 400, body := .textBody "invalid request body",
        store := s, storeCalls := 1 }
    | some req =>
      if trimSpace req.provider == "" then
        { status := 400, body := .textBody "provider is required",
          store := s, storeCalls := 1 }
      else if !allowedProviders req.provider then
        { status := 400,
          body := .textBody "invalid provider. allowed: github, gitlab, gitea",
          store := s, storeCalls := 1 }
      else if trimSpace req.remoteURL == "" then
        { status := 400, body := .textBody "remote_url is required",
          store := s, storeCalls := 1 }
      else if !(strStarts req.remoteURL "https://" || strStarts req.remoteURL "ssh://") then
        { status := 400,
          body := .textBody "remote_url must start with https:// or ssh://",
          store := s, storeCalls := 1 }
      else if f.targetExistsQueryFails then
        { status := 500, body := .textBody "failed to check target existence",
          store := s, storeCalls := 2 }
      else if existsTargetWithURL s rid req.remoteURL then
        { status := 409,
          body := .textBody "target with this remote_url already exists for this repository",
          store := s, storeCalls := 2 }
      else if f.insertFails then
        { status := 500, body := .textBody "failed to create target",
          store := s, storeCalls := 3 }
      else
        let t : Target :=
          { id := newId, repositoryID := rid, provider := req.provider,
            remoteURL := req.remoteURL, createdAt := now }
        { status := 201, body := .jsonBody (encodeTarget t),
          store := { s with targets := s.targets ++ [t] }, storeCalls := 3 }

/-- The per-repository loop body of `ListRepositories`: attach each
repository's targets, aborting (`none`) at the first repository whose targets
query fails; also counts the targets queries issued. -/
def attachTargets (s : Store) (failFor : List String) :
    List RepoRow → Option (List (RepoRow × List Target)) × Nat
  | [] => (some [], 0)
  | r :: rs =>
    if r.id ∈ failFor then (none, 1)
    else
      match attachTargets s failFor rs with
      | (none, n) => (none, n + 1)
      | (some rest, n) => (some ((r, targetsOf s r.id) :: rest), n + 1)

/-- `RepoHandler.ListRepositories` (repo_handler.go), which the facade
delegates to verbatim.  A nil repository slice is replaced by an empty one
before encoding, so an empty store serializes as `[]`, never `null`. -/
def listRepositories (s : Store) (f : ListFaults) : HandlerResult :=
  if f.reposQueryFails then
    { status := 500, body := .textBody "failed to fetch repositories",
      store := s, storeCalls := 1 }
  else
    match attachTargets s f.targetsQueryFailsFor (orderByCreatedDesc s.repos) with
    | (none, n) =>
      { status := 500, body := .textBody "failed to fetch targets",
        store := s, storeCalls := n + 1 }
    | (some rows, n) =>
      { status := 200,
        body := .jsonBody (.arr (rows.map (fun p => encodeRepoWith p.1 p.2))),
        store := s, storeCalls := n + 1 }

/-- `Handler.CreateRepository` of the monolithic single-handler variant
(second part of target_handler.go): same validation and checks; the identifier
is drawn client-side (`uuid.New().String()`) and inserted explicitly with
`ExecContext` instead of being returned by the store. -/
def monoCreateRepository (s : Store) (newId : String) (now : Nat)
    (body : Option CreateRepositoryRequest) (f : RepoCreateFaults) :
    HandlerResult :=
  match body with
  | none =>
    { status := 400, body := .textBody "invalid request body",
      store := s, storeCalls := 0 }
  | some req =>
    if trimSpace req.name == "" then
      { status := 400, body := .textBody "name is required",
        store := s, storeCalls := 0 }
    else if trimSpace req.sourceProvider == "" then
      { status := 400, body := .textBody "source_provider is required",
        store := s, storeCalls := 0 }
    else if trimSpace req.sourceURL == "" then
      { status := 400, body := .textBody "source_url is required",
        store := s, storeCalls := 0 }
    else if !allowedProviders req.sourceProvider then
      { status := 400,
        body := .textBody "invalid source_provider. allowed: github, gitlab, gitea",
        store := s, storeCalls := 0 }
    else if !(strStarts req.sourceURL "https://" || strStarts req.sourceURL "ssh://") then
      { status := 400,
        body := .textBody "source_url must start with https:// or ssh://",
        store := s, storeCalls := 0 }
    else if f.existsQueryFails then
      { status := 500, body := .textBody "failed to check repository existence",
        store := s, storeCalls := 1 }
    else if existsRepoWithSourceURL s req.sourceURL then
      { status := 409,
        body := .textBody "repository with this source_url already exists",
        store := s, storeCalls := 1 }
    else if f.insertFails then
      { status := 500,
        body := .textBody ("failed to create repository: " ++ f.insertErr),
        store := s, storeCalls := 2 }
    else
      let row : RepoRow :=
        { id := newId, name := req.name, sourceProvider := req.sourceProvider,
          sourceURL := req.sourceURL, createdAt := now }
      { status := 201, body := .jsonBody (encodeRepoWith row []),
        store := { s with repos := s.repos ++ [row] }, storeCalls := 2 }

/-- `Handler.ListRepositories` of the monolithic variant: identical logic to
the facade's `RepoHandler.ListRepositories`. -/
def monoListRepositories (s : Store) (f : ListFaults) : HandlerResult :=
  if f.reposQueryFails then
    { status := 500, body := .textBody "failed to fetch repositories",
      store := s, storeCalls := 1 }
  else
    match attachTargets s f.targetsQueryFailsFor (orderByCreatedDesc s.repos) with
    | (none, n) =>
      { status := 500, body := .textBody "failed to fetch targets",
        store := s, storeCalls := n + 1 }
    | (some rows, n) =>
      { status := 200,
        body := .jsonBody (.arr (rows.map (fun p => encodeRepoWith p.1 p.2))),
        store := s, storeCalls := n + 1 }

/-- `Handler.CreateTarget` of the monolithic variant: same checks and guard
`if err != nil || !exists` as the facade's `TargetHandler.CreateTarget`; the
identifier is drawn client-side and inserted with `ExecContext`. -/
def monoCreateTarget (s : Store) (newId : String) (now : Nat) (rid : String)
    (body : Option CreateTargetRequest) (f : TargetCreateFaults) :
    HandlerResult :=
  if f.repoExistsQueryFails || !existsRepoWithID s rid then
    { status := 404, body := .textBody "repository not found",
      store := s, storeCalls := 1 }
  else
    match body with
    | none =>
      { status := 400, body := .textBody "invalid request body",
        store := s, storeCalls := 1 }
    | some req =>
      if trimSpace req.provider == "" then
        { status := 400, body := .textBody "provider is required",
          store := s, storeCalls := 1 }
      else if !allowedProviders req.provider then
        { status := 400,
          body := .textBody "invalid provider. allowed: github, gitlab, gitea",
          store := s, storeCalls := 1 }
      else if trimSpace req.remoteURL == "" then
        { status := 400, body := .textBody "remote_url is required",
          store := s, storeCalls := 1 }
      else if !(strStarts req.remoteURL "https://" || strStarts req.remoteURL "ssh://") then
        { status := 400,
          body := .textBody "remote_url must start with https:// or ssh://",
          store := s, storeCalls := 1 }
      else if f.targetExistsQueryFails then
        { status := 500, body := .textBody "failed to check target existence",
          store := s, storeCalls := 2 }
      else if existsTargetWithURL s rid req.remoteURL then
        { status := 409,
          body := .textBody "target with this remote_url already exists for this repository",
          store := s, storeCalls := 2 }
      else if f.insertFails then
        { status := 500, body := .textBody "failed to create target",
          store := s, storeCalls := 3 }
      else
        let t : Target :=
          { id := newId, repositoryID := rid, provider := req.provider,
            remoteURL := req.remoteURL, createdAt := now }
        { status := 201, body := .jsonBody (encodeTarget t),
          store := { s with targets := s.targets ++ [t] }, storeCalls := 3 }

/-- Model of the identifier source (`gen_random_uuid()` / `uuid.New()`): an
injective stream of opaque fresh identifier strings, indexed by how many draws
have happened. -/
def genId (n : Nat) : String :=
  String.mk (List.replicate (n + 1) 'u')

/-- The environment around one handler process: the store plus the identifier
draw counter and the clock (`time.Now()` advances between requests). -/
structure Sys where
  store : Store
  nextId : Nat
  clock : Nat

/-- One `CreateRepository` request against the running system: the handler
consumes the next fresh identifier and the current clock value; both advance
afterwards. -/
def sysCreateRepository (sys : Sys) (body : Option CreateRepositoryRequest)
    (f : RepoCreateFaults) : HandlerResult × Sys :=
  let res := createRepository sys.store (genId sys.nextId) sys.clock body f
  (res, { store := res.store, nextId := sys.nextId + 1, clock := sys.clock + 1 })

/-- System well-formedness: every persisted repository id came from an earlier
draw of the identifier stream. -/
def Sys.WF (sys : Sys) : Prop :=
  ∀ r ∈ sys.store.repos, ∃ k, k < sys.nextId ∧ r.id = genId k

/-- The conjunction of `CreateRepository`'s input constraints, in the order the
handler checks them. -/
def validRepoReq (req : CreateRepositoryRequest) : Bool :=
  !(trimSpace req.name == "") && !(trimSpace req.sourceProvider == "") &&
  !(trimSpace req.sourceURL == "") && allowedProviders req.sourceProvider &&
  (strStarts req.sourceURL "https://" || strStarts req.sourceURL "ssh://")

/-- The conjunction of `CreateTarget`'s input constraints, in the order the
handler checks them. -/
def validTargetReq (req : CreateTargetRequest) : Bool :=
  !(trimSpace req.provider == "") && allowedProviders req.provider &&
  !(trimSpace req.remoteURL == "") &&
  (strStarts req.remoteURL "https://" || strStarts req.remoteURL "ssh://")

/-- A sample repository row used as concrete input in several witnesses. -/
def repoA : RepoRow :=
  { id := "r1", name := "svc", sourceProvider := "github",
    sourceURL := "https://github.com/org/svc", createdAt := 5 }

/-- A store holding one repository and no targets. -/
def storeRepoOnly : Store :=
  { repos := [repoA], targets := [] }

theorem validRepoReq_elim {req : CreateRepositoryRequest}
    (hv : validRepoReq req = true) :
    (trimSpace req.name == "") = false ∧
    (trimSpace req.sourceProvider == "") = false ∧
    (trimSpace req.sourceURL == "") = false ∧
    allowedProviders req.sourceProvider = true ∧
    (strStarts req.sourceURL "https://" || strStarts req.sourceURL "ssh://") = true := by
  simp only [validRepoReq, Bool.and_eq_true, Bool.not_eq_true'] at hv
  exact ⟨hv.1.1.1.1, hv.1.1.1.2, hv.1.1.2, hv.1.2, hv.2⟩

theorem validTargetReq_elim {req : CreateTargetRequest}
    (hv : validTargetReq req = true) :
    (trimSpace req.provider == "") = false ∧
    allowedProviders req.provider = true ∧
    (trimSpace req.remoteURL == "") = false ∧
    (strStarts req.remoteURL "https://" || strStarts req.remoteURL "ssh://") = true := by
  simp only [validTargetReq, Bool.and_eq_true, Bool.not_eq_true'] at hv
  exact ⟨hv.1.1.1, hv.1.1.2, hv.1.2, hv.2⟩

/-- On a validation-passing request, `createRepository` reduces to its
post-validation behaviour: existence query, conflict check, insert. -/
theorem createRepository_valid (s : Store) (newId : String) (now : Nat)
    (req : CreateRepositoryRequest) (f : RepoCreateFaults)
    (hv : validRepoReq req = true) :
    createRepository s newId now (some req) f =
      if f.existsQueryFails then
        { status := 500, body := .textBody "failed to check repository existence",
          store := s, storeCalls := 1 }
      else if existsRepoWithSourceURL s req.sourceURL then
        { status := 409,
          body := .textBody "repository with this source_url already exists",
          store := s, storeCalls := 1 }
      else if f.insertFails then
        { status := 500,
          body := .textBody ("failed to create repository: " ++ f.insertErr),
          store := s, storeCalls := 2 }
      else
        { status := 201,
          body := .jsonBody (encodeRepoWith
            { id := newId, name := req.name, sourceProvider := req.sourceProvider,
              sourceURL := req.sourceURL, createdAt := now } []),
          store := { s with repos := s.repos ++
            [{ id := newId, name := req.name, sourceProvider := req.sourceProvider,
               sourceURL := req.sourceURL, createdAt := now }] },
          storeCalls := 2 } := by
  obtain ⟨h1, h2, h3, h4, h5⟩ := validRepoReq_elim hv
  simp [createRepository, h1, h2, h3, h4, h5]

/-- On an existing repository id and a validation-passing body, `createTarget`
reduces to its post-validation behaviour. -/
theorem createTarget_valid (s : Store) (newId : String) (now : Nat)
    (rid : String) (req : CreateTargetRequest) (f : TargetCreateFaults)
    (hr : existsRepoWithID s rid = true) (hnf : f.repoExistsQueryFails = false)
    (hv : validTargetReq req = true) :
    createTarget s newId now rid (some req) f =
      if f.targetExistsQueryFails then
        { status := 500, body := .textBody "failed to check target existence",
          store := s, storeCalls := 2 }
      else if existsTargetWithURL s rid req.remoteURL then
        { status := 409,
          body := .textBody "target with this remote_url already exists for this repository",
          store := s, storeCalls := 2 }
      else if f.insertFails then
        { status := 500, body := .textBody "failed to create target",
          store := s, storeCalls := 3 }
      else
        { status := 201,
          body := .jsonBody (encodeTarget
            { id := newId, repositoryID := rid, provider := req.provider,
              remoteURL := req.remoteURL, createdAt := now }),
          store := { s with targets := s.targets ++
            [{ id := newId, repositoryID := rid, provider := req.provider,
               remoteURL := req.remoteURL, createdAt := now }] },
          storeCalls := 3 } := by
  obtain ⟨h1, h2, h3, h4⟩ := validTargetReq_elim hv
  simp [createTarget, hr, hnf, h1, h2, h3, h4]

/-- On a validation-passing request with an unregistered source url and a
fault-free store, `createRepository` returns 201 and appends exactly one
row. -/
theorem createRepository_success (s : Store) (newId : String) (now : Nat)
    (req : CreateRepositoryRequest)
    (hv : validRepoReq req = true)
    (hex : existsRepoWithSourceURL s req.sourceURL = false) :
    createRepository s newId now (some req) noRepoFaults =
      { status := 201,
        body := .jsonBody (encodeRepoWith
          { id := newId, name := req.name, sourceProvider := req.sourceProvider,
            sourceURL := req.sourceURL, createdAt := now } []),
        store := { s with repos := s.repos ++
          [{ id := newId, name := req.name, sourceProvider := req.sourceProvider,
             sourceURL := req.sourceURL, createdAt := now }] },
        storeCalls := 2 } := by
  rw [createRepository_valid s newId now req noRepoFaults hv]
  simp [noRepoFaults, hex]

/-- C1: a valid `CreateRepository` request conflicts (409) when the source url
is already registered, succeeds (201) when it is not, and of two identical
valid create calls run in sequence the first returns 201 and the second
409. -/
theorem c1_duplicate_source_url_conflict (s : Store)
    (req : CreateRepositoryRequest) (id1 id2 : String) (t1 t2 : Nat)
    (hv : validRepoReq req = true) :
    (existsRepoWithSourceURL s req.sourceURL = true →
      (createRepository s id1 t1 (some req) noRepoFaults).status = 409) ∧
    (existsRepoWithSourceURL s req.sourceURL = false →
      (createRepository s id1 t1 (some req) noRepoFaults).status = 201 ∧
      (createRepository (createRepository s id1 t1 (some req) noRepoFaults).store
        id2 t2 (some req) noRepoFaults).status = 409) := by
  refine ⟨fun hex => ?_, fun hex => ?_⟩
  · rw [createRepository_valid s id1 t1 req noRepoFaults hv]
    simp [noRepoFaults, hex]
  · rw [createRepository_success s id1 t1 req hv hex]
    refine ⟨rfl, ?_⟩
    rw [createRepository_valid _ id2 t2 req noRepoFaults hv]
    have hex2 : existsRepoWithSourceURL
        { s with repos := s.repos ++
          [{ id := id1, name := req.name, sourceProvider := req.sourceProvider,
             sourceURL := req.sourceURL, createdAt := t1 }] } req.sourceURL = true := by
      simp [existsRepoWithSourceURL]
    simp [noRepoFaults, hex2]

/-- C1 witness: on the empty store, creating `svc` twice with the same source
url gives 201 then 409. -/
theorem c1_duplicate_source_url_conflict_witness :
    validRepoReq ⟨"svc", "github", "https://github.com/org/svc"⟩ = true ∧
    (createRepository ⟨[], []⟩ "u1" 1
      (some ⟨"svc", "github", "https://github.com/org/svc"⟩) noRepoFaults).status = 201 ∧
    (createRepository
      (createRepository ⟨[], []⟩ "u1" 1
        (some ⟨"svc", "github", "https://github.com/org/svc"⟩) noRepoFaults).store
      "u2" 2
      (some ⟨"svc", "github", "https://github.com/org/svc"⟩) noRepoFaults).status = 409 :=
  ⟨by decide,
   ((c1_duplicate_source_url_conflict ⟨[], []⟩
      ⟨"svc", "github", "https://github.com/org/svc"⟩ "u1" "u2" 1 2 (by decide)).2
      (by decide)).1,
   ((c1_duplicate_source_url_conflict ⟨[], []⟩
      ⟨"svc", "github", "https://github.com/org/svc"⟩ "u1" "u2" 1 2 (by decide)).2
      (by decide)).2⟩

/-- C2: `CreateTarget` on a repository id that is not in the store returns 404
with body `repository not found` and leaves the store unchanged, for every
body (including a malformed one) and every fault configuration. -/
theorem c2_create_target_missing_repo_404 (s : Store) (rid newId : String)
    (now : Nat) (body : Option CreateTargetRequest) (f : TargetCreateFaults)
    (h : existsRepoWithID s rid = false) :
    (createTarget s newId now rid body f).status = 404 ∧
    (createTarget s newId now rid body f).body = .textBody "repository not found" ∧
    (createTarget s newId now rid body f).store = s := by
  simp [createTarget, h]

/-- C2 witness: a malformed body against the unknown id `nope` on a store with
one repository still yields 404 and no insertion. -/
theorem c2_create_target_missing_repo_404_witness :
    existsRepoWithID storeRepoOnly "nope" = false ∧
    (createTarget storeRepoOnly "t1" 7 "nope" none noTargetFaults).status = 404 ∧
    (createTarget storeRepoOnly "t1" 7 "nope" none noTargetFaults).store = storeRepoOnly :=
  ⟨by decide,
   (c2_create_target_missing_repo_404 storeRepoOnly "nope" "t1" 7 none
     noTargetFaults (by decide)).1,
   (c2_create_target_missing_repo_404 storeRepoOnly "nope" "t1" 7 none
     noTargetFaults (by decide)).2.2⟩

/-- On every non-201 outcome, `createRepository` leaves the store untouched. -/
theorem createRepository_error_store_eq (s : Store) (newId : String) (now : Nat)
    (rbody : Option CreateRepositoryRequest) (rf : RepoCreateFaults)
    (h : (createRepository s newId now rbody rf).status ≠ 201) :
    (createRepository s newId now rbody rf).store = s := by
  cases rbody with
  | none => rfl
  | some req =>
    simp only [createRepository] at h ⊢
    split_ifs at h ⊢ <;> first | rfl | exact absurd rfl h

/-- On every non-201 outcome, `createTarget` leaves the store untouched. -/
theorem createTarget_error_store_eq (s : Store) (newId : String) (now : Nat)
    (rid : String) (tbody : Option CreateTargetRequest) (tf : TargetCreateFaults)
    (h : (createTarget s newId now rid tbody tf).status ≠ 201) :
    (createTarget s newId now rid tbody tf).store = s := by
  by_cases c0 : (tf.repoExistsQueryFails || !existsRepoWithID s rid) = true
  · simp [createTarget, c0]
  · cases tbody with
    | none => simp [createTarget, c0]
    | some req =>
      simp only [createTarget, c0, Bool.false_eq_true, if_false] at h ⊢
      split_ifs at h ⊢ <;> first | rfl | exact absurd rfl h

/-- C10: whenever `CreateRepository` or `CreateTarget` responds with any status
other than 201 — for any body, fault configuration and store — the store after
the call is exactly the store before it. -/
theorem c10_create_atomic_on_error (s : Store) (newId : String) (now : Nat)
    (rbody : Option CreateRepositoryRequest) (rf : RepoCreateFaults)
    (rid : String) (tbody : Option CreateTargetRequest) (tf : TargetCreateFaults) :
    ((createRepository s newId now rbody rf).status ≠ 201 →
      (createRepository s newId now rbody rf).store = s) ∧
    ((createTarget s newId now rid tbody tf).status ≠ 201 →
      (createTarget s newId now rid tbody tf).store = s) :=
  ⟨createRepository_error_store_eq s newId now rbody rf,
   createTarget_error_store_eq s newId now rid tbody tf⟩

/-- On an existing repository id, a validation-passing body, no duplicate
(repository, remote url) pair and a fault-free store, `createTarget` returns
201 and appends exactly one target row. -/
theorem createTarget_success (s : Store) (newId : String) (now : Nat)
    (rid : String) (req : CreateTargetRequest)
    (hr : existsRepoWithID s rid = true)
    (hv : validTargetReq req = true)
    (hex : existsTargetWithURL s rid req.remoteURL = false) :
    createTarget s newId now rid (some req) noTargetFaults =
      { status := 201,
        body := .jsonBody (encodeTarget
          { id := newId, repositoryID := rid, provider := req.provider,
            remoteURL := req.remoteURL, createdAt := now }),
        store := { s with targets := s.targets ++
          [{ id := newId, repositoryID := rid, provider := req.provider,
             remoteURL := req.remoteURL, createdAt := now }] },
        storeCalls := 3 } := by
  rw [createTarget_valid s newId now rid req noTargetFaults hr rfl hv]
  simp [noTargetFaults, hex]

/-- A second sample repository row, distinct from `repoA`. -/
def repoB : RepoRow :=
  { id := "r2", name := "svc2", sourceProvider := "gitlab",
    sourceURL := "https://gitlab.com/org/svc2", createdAt := 9 }

/-- A store holding two repositories and no targets. -/
def storeTwoRepos : Store :=
  { repos := [repoA, repoB], targets := [] }

/-- C4: target uniqueness is scoped to the owning repository — with identical
(repository id, remote url) the first create returns 201 and the repeated one
409, while the same remote url under a second, different repository id also
returns 201. -/
theorem c4_target_uniqueness_scoped (s : Store) (rid1 rid2 : String)
    (treq : CreateTargetRequest) (id1 id2 id3 : String) (t1 t2 t3 : Nat)
    (hv : validTargetReq treq = true)
    (h1 : existsRepoWithID s rid1 = true) (h2 : existsRepoWithID s rid2 = true)
    (hne : rid1 ≠ rid2)
    (hf1 : existsTargetWithURL s rid1 treq.remoteURL = false)
    (hf2 : existsTargetWithURL s rid2 treq.remoteURL = false) :
    ((createTarget s id1 t1 rid1 (some treq) noTargetFaults).status = 201 ∧
     (createTarget (createTarget s id1 t1 rid1 (some treq) noTargetFaults).store
        id2 t2 rid1 (some treq) noTargetFaults).status = 409) ∧
    (createTarget (createTarget s id1 t1 rid1 (some treq) noTargetFaults).store
        id3 t3 rid2 (some treq) noTargetFaults).status = 201 := by
  have e1 := createTarget_success s id1 t1 rid1 treq h1 hv hf1
  have hst : (createTarget s id1 t1 rid1 (some treq) noTargetFaults).store =
      { s with targets := s.targets ++
        [{ id := id1, repositoryID := rid1, provider := treq.provider,
           remoteURL := treq.remoteURL, createdAt := t1 }] } := by rw [e1]
  have hex409 : existsTargetWithURL
      { s with targets := s.targets ++
        [{ id := id1, repositoryID := rid1, provider := treq.provider,
           remoteURL := treq.remoteURL, createdAt := t1 }] } rid1 treq.remoteURL = true := by
    simp [existsTargetWithURL]
  have hex201 : existsTargetWithURL
      { s with targets := s.targets ++
        [{ id := id1, repositoryID := rid1, provider := treq.provider,
           remoteURL := treq.remoteURL, createdAt := t1 }] } rid2 treq.remoteURL = false := by
    simp only [existsTargetWithURL] at hf2 ⊢
    simp only [List.any_append, Bool.or_eq_false_iff]
    refine ⟨hf2, ?_⟩
    simp [hne]
  refine ⟨⟨by rw [e1], ?_⟩, ?_⟩
  · rw [hst, createTarget_valid
      ({ s with targets := s.targets ++
        [{ id := id1, repositoryID := rid1, provider := treq.provider,
           remoteURL := treq.remoteURL, createdAt := t1 }] })
      id2 t2 rid1 treq noTargetFaults h1 rfl hv]
    simp [noTargetFaults, hex409]
  · rw [hst, createTarget_valid
      ({ s with targets := s.targets ++
        [{ id := id1, repositoryID := rid1, provider := treq.provider,
           remoteURL := treq.remoteURL, createdAt := t1 }] })
      id3 t3 rid2 treq noTargetFaults h2 rfl hv]
    simp [noTargetFaults, hex201]

/-- C4 witness: on a two-repository store, the target `https://mirror.example/m`
is created under `r1` (201), repeating it under `r1` conflicts (409), and the
same remote url under `r2` succeeds (201). -/
theorem c4_target_uniqueness_scoped_witness :
    (createTarget storeTwoRepos "t1" 11 "r1"
      (some ⟨"gitea", "https://mirror.example/m"⟩) noTargetFaults).status = 201 ∧
    (createTarget
      (createTarget storeTwoRepos "t1" 11 "r1"
        (some ⟨"gitea", "https://mirror.example/m"⟩) noTargetFaults).store
      "t2" 12 "r1"
      (some ⟨"gitea", "https://mirror.example/m"⟩) noTargetFaults).status = 409 ∧
    (createTarget
      (createTarget storeTwoRepos "t1" 11 "r1"
        (some ⟨"gitea", "https://mirror.example/m"⟩) noTargetFaults).store
      "t3" 13 "r2"
      (some ⟨"gitea", "https://mirror.example/m"⟩) noTargetFaults).status = 201 :=
  ⟨(c4_target_uniqueness_scoped storeTwoRepos "r1" "r2"
      ⟨"gitea", "https://mirror.example/m"⟩ "t1" "t2" "t3" 11 12 13
      (by decide) (by decide) (by decide) (by decide) (by decide) (by decide)).1.1,
   (c4_target_uniqueness_scoped storeTwoRepos "r1" "r2"
      ⟨"gitea", "https://mirror.example/m"⟩ "t1" "t2" "t3" 11 12 13
      (by decide) (by decide) (by decide) (by decide) (by decide) (by decide)).1.2,
   (c4_target_uniqueness_scoped storeTwoRepos "r1" "r2"
      ⟨"gitea", "https://mirror.example/m"⟩ "t1" "t2" "t3" 11 12 13
      (by decide) (by decide) (by decide) (by decide) (by decide) (by decide)).2⟩

/-- The three input fields of a `CreateRepository` request. -/
inductive RepoField where
  | nameF : RepoField
  | providerF : RepoField
  | urlF : RepoField
deriving DecidableEq, Repr

/-- Whether a request violates the input constraint attached to a field:
blank name; blank or disallowed source provider; blank source url or one not
beginning with `https://` or `ssh://`. -/
def violatesField (req : CreateRepositoryRequest) : RepoField → Bool
  | .nameF => trimSpace req.name == ""
  | .providerF =>
      trimSpace req.sourceProvider == "" || !allowedProviders req.sourceProvider
  | .urlF =>
      trimSpace req.sourceURL == "" ||
      !(strStarts req.sourceURL "https://" || strStarts req.sourceURL "ssh://")

/-- The JSON name of each request field. -/
def fieldName : RepoField → String
  | .nameF => "name"
  | .providerF => "source_provider"
  | .urlF => "source_url"

/-- Which field each of the handler's validation error messages identifies. -/
def errFieldOf (msg : String) : Option String :=
  if msg == "name is required" then some "name"
  else if msg == "source_provider is required" then some "source_provider"
  else if msg == "invalid source_provider. allowed: github, gitlab, gitea" then
    some "source_provider"
  else if msg == "source_url is required" then some "source_url"
  else if msg == "source_url must start with https:// or ssh://" then
    some "source_url"
  else none

/-- C3: on a decoded request, `CreateRepository` answers 400 without touching
the store exactly when some input constraint is violated, and in that case the
error message identifies a violated field. -/
theorem c3_validation_iff_no_store_call (s : Store) (newId : String) (now : Nat)
    (req : CreateRepositoryRequest) (f : RepoCreateFaults) :
    (((createRepository s newId now (some req) f).status = 400 ∧
      (createRepository s newId now (some req) f).storeCalls = 0) ↔
      ∃ fld, violatesField req fld = true) ∧
    ((∃ fld, violatesField req fld = true) →
      ∃ fld msg, violatesField req fld = true ∧
        (createRepository s newId now (some req) f).body = .textBody msg ∧
        errFieldOf msg = some (fieldName fld)) := by
  by_cases c1 : (trimSpace req.name == "") = true
  · constructor
    · simp [createRepository, c1]
      exact ⟨.nameF, by simp [violatesField, c1]⟩
    · exact fun _ => ⟨.nameF, "name is required",
        by simp [violatesField, c1], by simp [createRepository, c1], rfl⟩
  · by_cases c2 : (trimSpace req.sourceProvider == "") = true
    · constructor
      · simp [createRepository, c1, c2]
        exact ⟨.providerF, by simp [violatesField, c2]⟩
      · exact fun _ => ⟨.providerF, "source_provider is required",
          by simp [violatesField, c2], by simp [createRepository, c1, c2], rfl⟩
    · by_cases c3 : (trimSpace req.sourceURL == "") = true
      · constructor
        · simp [createRepository, c1, c2, c3]
          exact ⟨.urlF, by simp [violatesField, c3]⟩
        · exact fun _ => ⟨.urlF, "source_url is required",
            by simp [violatesField, c3], by simp [createRepository, c1, c2, c3], rfl⟩
      · by_cases c4 : (!allowedProviders req.sourceProvider) = true
        · constructor
          · simp [createRepository, c1, c2, c3, c4]
            exact ⟨.providerF, by simp [violatesField, c4]⟩
          · exact fun _ => ⟨.providerF,
              "invalid source_provider. allowed: github, gitlab, gitea",
              by simp [violatesField, c4],
              by simp [createRepository, c1, c2, c3, c4], rfl⟩
        · by_cases c5 : (!(strStarts req.sourceURL "https://" ||
              strStarts req.sourceURL "ssh://")) = true
          · constructor
            · simp [createRepository, c1, c2, c3, c4, c5]
              exact ⟨.urlF, by simp [violatesField, c5]⟩
            · exact fun _ => ⟨.urlF,
                "source_url must start with https:// or ssh://",
                by simp [violatesField, c5],
                by simp [createRepository, c1, c2, c3, c4, c5], rfl⟩
          · have hnoviol : ¬∃ fld, violatesField req fld = true := by
              rintro ⟨fld, hfld⟩
              cases fld with
              | nameF => exact c1 hfld
              | providerF =>
                simp only [violatesField, Bool.or_eq_true] at hfld
                rcases hfld with h | h
                · exact c2 h
                · exact c4 h
              | urlF =>
                simp only [violatesField, Bool.or_eq_true] at hfld
                rcases hfld with h | h
                · exact c3 h
                · exact c5 h
            constructor
            · constructor
              · rintro ⟨-, hcalls⟩
                exfalso
                simp only [createRepository] at hcalls
                rw [if_neg c1, if_neg c2, if_neg c3, if_neg c4, if_neg c5] at hcalls
                split_ifs at hcalls
              · exact fun hr => absurd hr hnoviol
            · exact fun hr => absurd hr hnoviol

/-- C3 witness: the disallowed provider `bitbucket` yields 400, no store
round-trips, and an error message naming `source_provider`. -/
theorem c3_validation_iff_no_store_call_witness :
    ((createRepository ⟨[], []⟩ "u1" 1
        (some ⟨"svc", "bitbucket", "https://x"⟩) noRepoFaults).status = 400 ∧
     (createRepository ⟨[], []⟩ "u1" 1
        (some ⟨"svc", "bitbucket", "https://x"⟩) noRepoFaults).storeCalls = 0) ∧
    (∃ fld msg, violatesField ⟨"svc", "bitbucket", "https://x"⟩ fld = true ∧
      (createRepository ⟨[], []⟩ "u1" 1
        (some ⟨"svc", "bitbucket", "https://x"⟩) noRepoFaults).body = .textBody msg ∧
      errFieldOf msg = some (fieldName fld)) :=
  ⟨(c3_validation_iff_no_store_call ⟨[], []⟩ "u1" 1
      ⟨"svc", "bitbucket", "https://x"⟩ noRepoFaults).1.mpr
      ⟨.providerF, by decide⟩,
   (c3_validation_iff_no_store_call ⟨[], []⟩ "u1" 1
      ⟨"svc", "bitbucket", "https://x"⟩ noRepoFaults).2
      ⟨.providerF, by decide⟩⟩

/-- With no failing targets queries, the listing loop attaches every
repository's targets and issues one targets query per repository. -/
theorem attachTargets_no_fail (s : Store) (rs : List RepoRow) :
    attachTargets s [] rs =
      (some (rs.map (fun r => (r, targetsOf s r.id))), rs.length) := by
  induction rs with
  | nil => rfl
  | cons r rs ih => simp [attachTargets, ih]

/-- `ListRepositories` on a fault-free store: 200 with the sorted repositories,
each carrying its targets from the store. -/
theorem listRepositories_no_faults (s : Store) :
    listRepositories s noListFaults =
      { status := 200,
        body := .jsonBody (.arr ((orderByCreatedDesc s.repos).map
          (fun r => encodeRepoWith r (targetsOf s r.id)))),
        store := s,
        storeCalls := (orderByCreatedDesc s.repos).length + 1 } := by
  simp [listRepositories, noListFaults, attachTargets_no_fail, List.map_map,
    Function.comp]

/-- A sample target row owned by `repoA`. -/
def targetT1 : Target :=
  { id := "t1", repositoryID := "r1", provider := "gitea",
    remoteURL := "https://mirror.example/m", createdAt := 6 }

/-- A store holding one repository that owns one target. -/
def storeWithTarget : Store :=
  { repos := [repoA], targets := [targetT1] }

/-- C5 counterexample: on a store whose only repository has no targets, the
listing serializes that repository *without* a `targets` key (the field is
`omitempty` over a nil slice), so the targets are not carried as an explicitly
present empty list. -/
theorem c5_targets_omitted_counterexample :
    (listRepositories storeRepoOnly noListFaults).status = 200 ∧
    (listRepositories storeRepoOnly noListFaults).body =
      .jsonBody (.arr [encodeRepoWith repoA []]) ∧
    targetsOf storeRepoOnly repoA.id = [] ∧
    Json.lookup (encodeRepoWith repoA []) "targets" = none ∧
    Json.lookup (encodeRepoWith repoA []) "targets" ≠ some (.arr []) :=
  ⟨rfl, rfl, rfl, rfl, fun h => Option.noConfusion h⟩

/-- C5 amended: in the `ListRepositories` response every repository appears
with its full target set from the store, but a repository with no targets has
its `targets` field omitted from the JSON object (not present as an empty
list); a repository with targets carries them all. -/
theorem c5_targets_field_presence_amended (s : Store) (r : RepoRow)
    (hr : r ∈ s.repos) :
    (listRepositories s noListFaults).body =
      .jsonBody (.arr ((orderByCreatedDesc s.repos).map
        (fun x => encodeRepoWith x (targetsOf s x.id)))) ∧
    r ∈ orderByCreatedDesc s.repos ∧
    (targetsOf s r.id = [] →
      Json.lookup (encodeRepoWith r (targetsOf s r.id)) "targets" = none) ∧
    (targetsOf s r.id ≠ [] →
      Json.lookup (encodeRepoWith r (targetsOf s r.id)) "targets" =
        some (.arr ((targetsOf s r.id).map encodeTarget))) := by
  refine ⟨by rw [listRepositories_no_faults], ?_, fun he => ?_, fun hne => ?_⟩
  · simpa [orderByCreatedDesc] using hr
  · rw [he]
    rfl
  · rcases hts : targetsOf s r.id with _ | ⟨a, l⟩
    · exact absurd hts hne
    · rfl

/-- C5 amended witness: on the store where `r1` owns target `t1`, the listing
body is the sorted encoding and `r1`'s object carries its one-target list. -/
theorem c5_targets_field_presence_amended_witness :
    (listRepositories storeWithTarget noListFaults).body =
      .jsonBody (.arr ((orderByCreatedDesc storeWithTarget.repos).map
        (fun x => encodeRepoWith x (targetsOf storeWithTarget x.id)))) ∧
    repoA ∈ orderByCreatedDesc storeWithTarget.repos ∧
    (targetsOf storeWithTarget repoA.id = [] →
      Json.lookup (encodeRepoWith repoA (targetsOf storeWithTarget repoA.id))
        "targets" = none) ∧
    (targetsOf storeWithTarget repoA.id ≠ [] →
      Json.lookup (encodeRepoWith repoA (targetsOf storeWithTarget repoA.id))
        "targets" =
        some (.arr ((targetsOf storeWithTarget repoA.id).map encodeTarget))) :=
  c5_targets_field_presence_amended storeWithTarget repoA (by decide)

/-- C7: `ListRepositories` returns 200 with the repositories in descending
creation-time order (a permutation of the table, pairwise sorted), and on an
empty store the body is the empty JSON array, not `null`. -/
theorem c7_list_sorted_desc_and_empty (s : Store) :
    (listRepositories s noListFaults).status = 200 ∧
    (∃ rows : List RepoRow, rows.Perm s.repos ∧
      rows.Pairwise (fun a b => b.createdAt ≤ a.createdAt) ∧
      (listRepositories s noListFaults).body =
        .jsonBody (.arr (rows.map (fun r => encodeRepoWith r (targetsOf s r.id))))) ∧
    (s.repos = [] →
      (listRepositories s noListFaults).body = .jsonBody (.arr []) ∧
      (listRepositories s noListFaults).body ≠ .jsonBody .null) := by
  refine ⟨by rw [listRepositories_no_faults],
    ⟨orderByCreatedDesc s.repos, ?_, ?_, by rw [listRepositories_no_faults]⟩,
    fun he => ⟨by rw [listRepositories_no_faults, he]; rfl, ?_⟩⟩
  · exact List.perm_insertionSort createdDesc s.repos
  · exact List.sorted_insertionSort createdDesc s.repos
  · intro h
    rw [listRepositories_no_faults, he] at h
    exact Json.noConfusion (RespBody.jsonBody.inj h)

/-- C7 witness: listing the empty store answers 200 with the empty array. -/
theorem c7_list_sorted_desc_and_empty_witness :
    (listRepositories ⟨[], []⟩ noListFaults).status = 200 ∧
    (listRepositories ⟨[], []⟩ noListFaults).body = .jsonBody (.arr []) :=
  ⟨(c7_list_sorted_desc_and_empty ⟨[], []⟩).1,
   ((c7_list_sorted_desc_and_empty ⟨[], []⟩).2.2 rfl).1⟩

/-- When some listed repository's targets query fails, the listing loop
aborts with `none`. -/
theorem attachTargets_fails (s : Store) (failFor : List String) :
    ∀ rs : List RepoRow, (∃ r ∈ rs, r.id ∈ failFor) →
      (attachTargets s failFor rs).1 = none := by
  intro rs
  induction rs with
  | nil =>
    rintro ⟨r, hr, -⟩
    exact absurd hr (List.not_mem_nil r)
  | cons r rs ih =>
    rintro ⟨x, hx, hxf⟩
    by_cases hc : r.id ∈ failFor
    · simp [attachTargets, hc]
    · have hx' : x ∈ rs := by
        rcases List.mem_cons.mp hx with rfl | h
        · exact absurd hxf hc
        · exact h
      have hn := ih ⟨x, hx', hxf⟩
      simp only [attachTargets, if_neg hc]
      rcases hA : attachTargets s failFor rs with ⟨o, n⟩
      cases o with
      | none => rfl
      | some l =>
        rw [hA] at hn
        simp at hn

/-- C6 counterexample: with the repository `r1` present in the store, a
store-level failure of the repository-existence query inside `CreateTarget`
is answered with 404 `repository not found`, not with a 500 store error. -/
theorem c6_repo_exists_fault_404_counterexample :
    existsRepoWithID storeRepoOnly "r1" = true ∧
    (createTarget storeRepoOnly "t1" 7 "r1"
      (some ⟨"gitea", "https://mirror.example/m"⟩)
      { repoExistsQueryFails := true, targetExistsQueryFails := false,
        insertFails := false }).status = 404 ∧
    (createTarget storeRepoOnly "t1" 7 "r1"
      (some ⟨"gitea", "https://mirror.example/m"⟩)
      { repoExistsQueryFails := true, targetExistsQueryFails := false,
        insertFails := false }).status ≠ 500 :=
  ⟨by decide, by decide, by decide⟩

/-- C6 amended: every modelled store failure is surfaced as a 500 server
fault, with one exception — a failure of the repository-existence query inside
`CreateTarget` is reported as 404 not-found instead. -/
theorem c6_store_errors_surfaced_amended (s : Store) (newId : String)
    (now : Nat) (rid : String) (req : CreateRepositoryRequest)
    (treq : CreateTargetRequest) (e : String)
    (hv : validRepoReq req = true) (htv : validTargetReq treq = true)
    (hr : existsRepoWithID s rid = true) :
    ((createRepository s newId now (some req)
        { existsQueryFails := true, insertFails := false, insertErr := e }).status = 500) ∧
    (existsRepoWithSourceURL s req.sourceURL = false →
      (createRepository s newId now (some req)
        { existsQueryFails := false, insertFails := true, insertErr := e }).status = 500) ∧
    (∀ (body : Option CreateTargetRequest) (tf : TargetCreateFaults),
      tf.repoExistsQueryFails = true →
      (createTarget s newId now rid body tf).status = 404 ∧
      (createTarget s newId now rid body tf).status ≠ 500) ∧
    ((createTarget s newId now rid (some treq)
        { repoExistsQueryFails := false, targetExistsQueryFails := true,
          insertFails := false }).status = 500) ∧
    (existsTargetWithURL s rid treq.remoteURL = false →
      (createTarget s newId now rid (some treq)
        { repoExistsQueryFails := false, targetExistsQueryFails := false,
          insertFails := true }).status = 500) ∧
    (∀ lf : ListFaults, lf.reposQueryFails = true →
      (listRepositories s lf).status = 500) ∧
    (∀ ids : List String, (∃ r ∈ s.repos, r.id ∈ ids) →
      (listRepositories s
        { reposQueryFails := false, targetsQueryFailsFor := ids }).status = 500) := by
  refine ⟨?_, fun hex => ?_, fun body tf htf => ⟨?_, ?_⟩, ?_, fun hex => ?_,
    fun lf hlf => ?_, fun ids hids => ?_⟩
  · rw [createRepository_valid s newId now req _ hv]
    rfl
  · rw [createRepository_valid s newId now req _ hv]
    simp [hex]
  · simp [createTarget, htf]
  · simp [createTarget, htf]
  · rw [createTarget_valid s newId now rid treq _ hr rfl htv]
    rfl
  · rw [createTarget_valid s newId now rid treq _ hr rfl htv]
    simp [hex]
  · simp [listRepositories, hlf]
  · have hnone := attachTargets_fails s ids (orderByCreatedDesc s.repos) ?_
    · simp only [listRepositories]
      rcases hA : attachTargets s ids (orderByCreatedDesc s.repos) with ⟨o, n⟩
      rw [hA] at hnone
      simp only at hnone
      subst hnone
      simp
    · obtain ⟨r, hrm, hri⟩ := hids
      exact ⟨r, by simpa [orderByCreatedDesc] using hrm, hri⟩

/-- C6 amended witness: on the one-repository store, a failing source-url
existence query in `CreateRepository` yields 500 while a failing
repository-existence query in `CreateTarget` yields 404. -/
theorem c6_store_errors_surfaced_amended_witness :
    (createRepository storeRepoOnly "u9" 8
      (some ⟨"svc3", "gitea", "https://gitea.example/org/svc3"⟩)
      { existsQueryFails := true, insertFails := false, insertErr := "boom" }).status = 500 ∧
    (createTarget storeRepoOnly "t9" 8 "r1" none
      { repoExistsQueryFails := true, targetExistsQueryFails := false,
        insertFails := false }).status = 404 ∧
    (listRepositories storeRepoOnly
      { reposQueryFails := false, targetsQueryFailsFor := ["r1"] }).status = 500 :=
  have h := c6_store_errors_surfaced_amended storeRepoOnly "u9" 8 "r1"
    ⟨"svc3", "gitea", "https://gitea.example/org/svc3"⟩
    ⟨"gitea", "https://mirror.example/m"⟩ "boom"
    (by decide) (by decide) (by decide)
  ⟨h.1,
   (h.2.2.1 none
      { repoExistsQueryFails := true, targetExistsQueryFails := false,
        insertFails := false } rfl).1,
   h.2.2.2.2.2.2 ["r1"] ⟨repoA, by decide, by decide⟩⟩

/-- Distinct draws from the identifier stream are distinct strings. -/
theorem genId_injective : Function.Injective genId := by
  intro m n h
  have hd : (List.replicate (m + 1) 'u') = (List.replicate (n + 1) 'u') :=
    congrArg String.data h
  have hl := congrArg List.length hd
  simpa using hl

/-- C8: a valid `CreateRepository` call on a well-formed system returns 201
with a body echoing the input fields, an identifier fresh against every
persisted repository, the current clock as creation time and no `targets`
(the empty target list); well-formedness is preserved, and a second
successful call gets a different identifier and a different timestamp. -/
theorem c8_create_success_echo_fresh (sys : Sys)
    (req req2 : CreateRepositoryRequest)
    (hwf : sys.WF) (hv : validRepoReq req = true)
    (hex : existsRepoWithSourceURL sys.store req.sourceURL = false) :
    ((sysCreateRepository sys (some req) noRepoFaults).1.status = 201) ∧
    (∃ j, (sysCreateRepository sys (some req) noRepoFaults).1.body = .jsonBody j ∧
      j.lookup "name" = some (.str req.name) ∧
      j.lookup "source_provider" = some (.str req.sourceProvider) ∧
      j.lookup "source_url" = some (.str req.sourceURL) ∧
      j.lookup "id" = some (.str (genId sys.nextId)) ∧
      j.lookup "created_at" = some (.num sys.clock) ∧
      j.lookup "targets" = none) ∧
    (∀ r ∈ sys.store.repos, r.id ≠ genId sys.nextId) ∧
    Sys.WF (sysCreateRepository sys (some req) noRepoFaults).2 ∧
    (validRepoReq req2 = true →
      existsRepoWithSourceURL
        (sysCreateRepository sys (some req) noRepoFaults).2.store
        req2.sourceURL = false →
      (sysCreateRepository (sysCreateRepository sys (some req) noRepoFaults).2
        (some req2) noRepoFaults).1.status = 201 ∧
      (∃ j2, (sysCreateRepository
          (sysCreateRepository sys (some req) noRepoFaults).2
          (some req2) noRepoFaults).1.body = .jsonBody j2 ∧
        j2.lookup "id" = some (.str (genId (sys.nextId + 1))) ∧
        j2.lookup "created_at" = some (.num (sys.clock + 1))) ∧
      genId (sys.nextId + 1) ≠ genId sys.nextId ∧
      sys.clock + 1 ≠ sys.clock) := by
  have e1 := createRepository_success sys.store (genId sys.nextId) sys.clock req hv hex
  have hres : sysCreateRepository sys (some req) noRepoFaults =
      (createRepository sys.store (genId sys.nextId) sys.clock (some req) noRepoFaults,
       { store := (createRepository sys.store (genId sys.nextId) sys.clock
           (some req) noRepoFaults).store,
         nextId := sys.nextId + 1, clock := sys.clock + 1 }) := rfl
  refine ⟨?_, ?_, ?_, ?_, fun hv2 hex2 => ?_⟩
  · rw [hres]
    simp only
    rw [e1]
  · refine ⟨encodeRepoWith
      { id := genId sys.nextId, name := req.name,
        sourceProvider := req.sourceProvider, sourceURL := req.sourceURL,
        createdAt := sys.clock } [], ?_, rfl, rfl, rfl, rfl, rfl, rfl⟩
    rw [hres]
    simp only
    rw [e1]
  · intro r hrm heq
    obtain ⟨k, hk, hkid⟩ := hwf r hrm
    exact absurd (genId_injective (hkid ▸ heq)) (Nat.ne_of_lt hk)
  · intro r hrm
    rw [hres] at hrm
    simp only at hrm
    rw [e1] at hrm
    simp only at hrm
    rcases List.mem_append.mp hrm with hold | hnew
    · obtain ⟨k, hk, hkid⟩ := hwf r hold
      exact ⟨k, Nat.lt_succ_of_lt hk, hkid⟩
    · rcases List.mem_singleton.mp hnew with rfl
      exact ⟨sys.nextId, Nat.lt_succ_self _, rfl⟩
  · have e2 := createRepository_success
      (sysCreateRepository sys (some req) noRepoFaults).2.store
      (genId (sys.nextId + 1)) (sys.clock + 1) req2 hv2 hex2
    have hres2 : sysCreateRepository
        (sysCreateRepository sys (some req) noRepoFaults).2
        (some req2) noRepoFaults =
        (createRepository (sysCreateRepository sys (some req) noRepoFaults).2.store
          (genId (sys.nextId + 1)) (sys.clock + 1) (some req2) noRepoFaults,
         { store := (createRepository
             (sysCreateRepository sys (some req) noRepoFaults).2.store
             (genId (sys.nextId + 1)) (sys.clock + 1) (some req2) noRepoFaults).store,
           nextId := sys.nextId + 1 + 1, clock := sys.clock + 1 + 1 }) := rfl
    refine ⟨?_, ⟨encodeRepoWith
        { id := genId (sys.nextId + 1), name := req2.name,
          sourceProvider := req2.sourceProvider, sourceURL := req2.sourceURL,
          createdAt := sys.clock + 1 } [], ?_, rfl, rfl⟩,
      fun h => Nat.succ_ne_self sys.nextId (genId_injective h),
      Nat.succ_ne_self sys.clock⟩
    · rw [hres2]
      simp only
      rw [e2]
    · rw [hres2]
      simp only
      rw [e2]

/-- C8 witness: two sequential creates on the empty system both answer 201 and
draw distinct identifiers. -/
theorem c8_create_success_echo_fresh_witness :
    (sysCreateRepository ⟨⟨[], []⟩, 0, 10⟩
      (some ⟨"svc", "github", "https://a"⟩) noRepoFaults).1.status = 201 ∧
    (sysCreateRepository
      (sysCreateRepository ⟨⟨[], []⟩, 0, 10⟩
        (some ⟨"svc", "github", "https://a"⟩) noRepoFaults).2
      (some ⟨"svc2", "gitlab", "https://b"⟩) noRepoFaults).1.status = 201 ∧
    genId 1 ≠ genId 0 :=
  have h := c8_create_success_echo_fresh ⟨⟨[], []⟩, 0, 10⟩
    ⟨"svc", "github", "https://a"⟩ ⟨"svc2", "gitlab", "https://b"⟩
    (by intro r hr; exact absurd hr (List.not_mem_nil r))
    (by decide) (by decide)
  ⟨h.1, (h.2.2.2.2 (by decide) (by decide)).1,
   (h.2.2.2.2 (by decide) (by decide)).2.2.1⟩

/-- C9: the facade path (`Handler` delegating to `RepoHandler` and
`TargetHandler`) and the monolithic single-handler implementation agree on
every request, store state and fault configuration: identical status, body and
store effects for `CreateRepository`, `ListRepositories` and `CreateTarget`. -/
theorem c9_facade_mono_equiv :
    (∀ (s : Store) (newId : String) (now : Nat)
      (body : Option CreateRepositoryRequest) (f : RepoCreateFaults),
      createRepository s newId now body f = monoCreateRepository s newId now body f) ∧
    (∀ (s : Store) (f : ListFaults),
      listRepositories s f = monoListRepositories s f) ∧
    (∀ (s : Store) (newId : String) (now : Nat) (rid : String)
      (body : Option CreateTargetRequest) (f : TargetCreateFaults),
      createTarget s newId now rid body f = monoCreateTarget s newId now rid body f) :=
  ⟨fun _ _ _ body _ => by cases body <;> rfl,
   fun _ _ => rfl,
   fun _ _ _ _ body _ => by cases body <;> rfl⟩

/-- C10 witness: a conflicting second create (status 409) leaves the store of
one repository unchanged. -/
theorem c10_create_atomic_on_error_witness :
    (createRepository storeRepoOnly "u2" 9
      (some ⟨"svc", "github", "https://github.com/org/svc"⟩) noRepoFaults).status ≠ 201 ∧
    (createRepository storeRepoOnly "u2" 9
      (some ⟨"svc", "github", "https://github.com/org/svc"⟩) noRepoFaults).store = storeRepoOnly :=
  ⟨by decide,
   (c10_create_atomic_on_error storeRepoOnly "u2" 9
      (some ⟨"svc", "github", "https://github.com/org/svc"⟩) noRepoFaults
      "r1" none noTargetFaults).1 (by decide)⟩

end GitSync
